import Mathlib

/-!
Verification of the licensing-assistant assessment and rule-matching engine.

The business profile carries a floor area (a real-valued quantity, embedded
as a rational), a seat count (an integer) and a list of feature tags.
The backend module backend/app.py is not part of the checked-in sources;
its central functions are reproduced verbatim in
src/docs/TECHNICAL_DOCUMENTATION.md and the definitions below follow those
excerpts and the design document.  Frontend JavaScript
(src/unnamed/part_000, src/unnamed/part_001, src/frontend/script.js,
src/my-app/src/components/DynamicForm.jsx) is embedded directly.
-/

namespace LicensingAssistant

/-- A normalized business profile: positive area in square meters,
non-negative seat count, and declared feature tags. -/
structure BusinessProfile where
  area : ℚ
  seats : ℤ
  features : List String
deriving DecidableEq

/-- A rule condition: a record of optional clauses.  In the JSON corpus the
condition sits under the key named if; absence of a key means the clause is
unconstrained, mirrored here by none. -/
structure Condition where
  area_min : Option ℚ := none
  area_max : Option ℚ := none
  seats_min : Option ℤ := none
  seats_max : Option ℤ := none
  features_any : Option (List String) := none
  features_all : Option (List String) := none
deriving DecidableEq

/-- A regulatory rule as stored in the corpus. -/
structure Rule where
  id : String
  category : String
  title : String
  status : String
  note : String
  section_ref : String
  cond : Condition
  source : String
deriving DecidableEq

/-- Modelled from the spec: rule_matches of backend/app.py is not in src;
this follows the verbatim excerpt in src/docs/TECHNICAL_DOCUMENTATION.md
(lines 311-349).  Each present clause is checked in order and the first
failing clause returns False; a profile feature set membership test stands
in for the Python set operations. -/
def rule_matches (condition : Condition) (payload : BusinessProfile) : Bool :=
  let area := payload.area
  let seats := payload.seats
  let features := payload.features
  if condition.area_min.any (fun m => decide (area < m)) then false
  else if condition.area_max.any (fun m => decide (area > m)) then false
  else if condition.seats_min.any (fun m => decide (seats < m)) then false
  else if condition.seats_max.any (fun m => decide (seats > m)) then false
  else if condition.features_any.any (fun req => req.all (fun f => !(features.contains f))) then false
  else if condition.features_all.any (fun req => !(req.all (fun f => features.contains f))) then false
  else true

/-- The conjunction of clauses as the specification words them: every
clause present in the condition holds, and an absent clause never
constrains. -/
def conditionHolds (c : Condition) (p : BusinessProfile) : Prop :=
  (∀ m ∈ c.area_min, m ≤ p.area) ∧
  (∀ m ∈ c.area_max, p.area ≤ m) ∧
  (∀ m ∈ c.seats_min, m ≤ p.seats) ∧
  (∀ m ∈ c.seats_max, p.seats ≤ m) ∧
  (∀ req ∈ c.features_any, ∃ f ∈ req, f ∈ p.features) ∧
  (∀ req ∈ c.features_all, ∀ f ∈ req, f ∈ p.features)

/-- The empty condition: no clause present. -/
def emptyCondition : Condition := {}

/-- Modelled from the spec: the matching loop of backend/app.py is not in
src; spec section 4.3 describes it as the stable filter of the corpus by
the condition predicate, preserving corpus order. -/
def matchedRules (p : BusinessProfile) (corpus : List Rule) : List Rule :=
  corpus.filter (fun r => rule_matches r.cond p)

/-- The two fire-safety regulatory tracks. -/
inductive FireTrack where
  | declaration
  | fullReview
deriving DecidableEq

/-- Modelled from the spec: the fire-track step of evaluate_restaurant in
backend/app.py is not in src; this follows the excerpt in
src/docs/TECHNICAL_DOCUMENTATION.md (lines 281-289): small businesses with
area at most 150 and seats at most 50 use the declaration track. -/
def fire_track (area : ℚ) (seats : ℤ) : FireTrack :=
  if area ≤ 150 ∧ seats ≤ 50 then .declaration else .fullReview

/-- Modelled from the spec: the police step of evaluate_restaurant in
backend/app.py is not in src; this follows the excerpt in
src/docs/TECHNICAL_DOCUMENTATION.md (lines 293-307): police requirements
apply when alcohol is served or the seat count strictly exceeds 200. -/
def police_required (seats : ℤ) (features : List String) : Bool :=
  features.contains "alcohol" || decide (seats > 200)

/-- The closed feature enumeration of the system. -/
def allowed_features : List String := ["gas", "delivery", "alcohol", "hood", "meat"]

/-- Modelled from the spec: the feature-validation step of
evaluate_restaurant in backend/app.py is not in src; this follows the
excerpt in src/docs/TECHNICAL_DOCUMENTATION.md (lines 272-277): the
offending values are collected and reported in the error. -/
def validate_features (features : List String) : Except (List String) Unit :=
  let invalid := features.filter (fun f => !(allowed_features.contains f))
  if invalid.isEmpty then Except.ok () else Except.error invalid

/-- Profile with area exactly 150, for the boundary instance. -/
def profileArea150 : BusinessProfile := { area := 150, seats := 0, features := [] }

/-- Profile with area 150.0001, for the boundary instance. -/
def profileArea150_0001 : BusinessProfile := { area := 150 + 1 / 10000, seats := 0, features := [] }

/-- Condition constraining only the maximal area to 150. -/
def condAreaMax150 : Condition := { area_max := some 150 }

/-- A JavaScript runtime value, restricted to the shapes the frontend
validation code can receive for the area, seats and features fields:
numbers, strings, undefined, null, and arrays of feature strings. -/
inductive JSVal where
  | num (q : ℚ)
  | str (s : String)
  | undef
  | null
  | arr (elems : List String)
deriving DecidableEq

/-- JavaScript truthiness of a value: zero, the empty string, undefined
and null are falsy; arrays are always truthy. -/
def JSVal.truthy : JSVal → Bool
  | .num q => decide (q ≠ 0)
  | .str s => decide (s ≠ "")
  | .undef => false
  | .null => false
  | .arr _ => true

/-- The JavaScript ToNumber coercion of a string, with none modelling NaN.
The empty string coerces to zero; the model parses non-negative decimal
integer literals and treats every other string as NaN, which agrees with
JavaScript on all inputs appearing in the development. -/
def jsStrToNum (s : String) : Option ℚ :=
  if s = "" then some 0
  else if s.toList.all Char.isDigit then
    some ((s.toList.foldl (fun n c => n * 10 + (c.toNat - 48)) 0 : ℕ) : ℚ)
  else none

/-- The JavaScript ToNumber coercion: undefined is NaN, null is zero, an
array coerces through its comma-joined string form. -/
def JSVal.toNum : JSVal → Option ℚ
  | .num q => some q
  | .str s => jsStrToNum s
  | .undef => none
  | .null => some 0
  | .arr [] => some 0
  | .arr [s] => jsStrToNum s
  | .arr (_ :: _ :: _) => none

/-- A JavaScript relational comparison of a value against a rational: both
sides are coerced to numbers and any NaN makes the comparison false. -/
def jsLe (v : JSVal) (b : ℚ) : Bool :=
  match v.toNum with
  | some x => decide (x ≤ b)
  | none => false

/-- Strict variant of jsLe. -/
def jsLt (v : JSVal) (b : ℚ) : Bool :=
  match v.toNum with
  | some x => decide (x < b)
  | none => false

/-- Whether a value is an array, as Array.isArray reports. -/
def JSVal.isArr : JSVal → Bool
  | .arr _ => true
  | _ => false

/-- ApiService.validateBusinessData from src/unnamed/part_000 lines
87-110: throws when the area is falsy or at most zero, when seats is
undefined or negative, or when features is not an array; the two
console.warn advisories have no effect on the outcome and are omitted. -/
def validateBusinessData (area seats features : JSVal) : Except String Unit :=
  if (!area.truthy || jsLe area 0) = true then Except.error "area must be positive"
  else if (decide (seats = JSVal.undef) || jsLt seats 0) = true then
    Except.error "seats must be zero or more"
  else if (!features.isArr) = true then Except.error "features must be an array"
  else Except.ok ()

/-- An action line of a report: title, category and priority. -/
structure ReportAction where
  title : String
  category : String
  priority : String
deriving DecidableEq

/-- A report conforming to the shared report schema: overall summary,
required actions, potential risks, tips, budget planning, optional open
questions, and the fallback marker.  Empty lists stand for sections with
no entries, never omitted keys. -/
structure Report where
  summary : String
  actions : List ReportAction
  potential_risks : List String
  tips : List String
  budget_planning : List String
  open_questions : List String
  is_fallback : Bool
deriving DecidableEq

/-- The report content an AI call can produce: the same sections without
the fallback marker. -/
structure ReportContent where
  summary : String
  actions : List ReportAction
  potential_risks : List String
  tips : List String
  budget_planning : List String
  open_questions : List String
deriving DecidableEq

/-- Outcome of the AI-augmentation attempt: a structured report, or a
failure (network failure, timeout, malformed response, or missing
credentials, all handled alike). -/
inductive AIOutcome where
  | ok (content : ReportContent)
  | failure (reason : String)
deriving DecidableEq

/-- The top-level keys of the shared report schema. -/
def reportSchemaKeys : List String :=
  ["summary", "actions", "potential_risks", "tips", "budget_planning",
   "open_questions", "is_fallback"]

/-- Top-level keys a report exposes.  Both variants inhabit the single
record type Report, so every schema key is always present. -/
def Report.topLevelKeys (_ : Report) : List String := reportSchemaKeys

/-- Priority of a fallback action, derived from the rule status. -/
def statusPriority (status : String) : String :=
  if status = "mandatory" then "high" else "medium"

/-- Modelled from the spec: create_basic_report of backend/app.py is not
in src; spec section 4.4 describes it as deterministically synthesizing a
schema-conformant report with one action per mandatory matched rule
(priority derived from rule status), a generic risk and tip set, a budget
section from rule metadata, and the explicit fallback marker set. -/
def create_basic_report (matched : List Rule) : Report :=
  { summary := "locally generated basic assessment",
    actions := (matched.filter (fun r => r.status = "mandatory")).map
      (fun r => { title := r.title, category := r.category,
                  priority := statusPriority r.status }),
    potential_risks := ["regulatory delay"],
    tips := ["consult a licensed professional"],
    budget_planning := ["licensing fees", "periodic inspections"],
    open_questions := [],
    is_fallback := true }

/-- Modelled from the spec: the report-assembly step of backend/app.py is
not in src; the try-except excerpt in src/docs/TECHNICAL_DOCUMENTATION.md
(lines 407-418) keeps the AI report on success and switches to the basic
report on any failure.  The AI-path report carries the fallback marker as
false, per spec section 4.4. -/
def assemble_report (ai : AIOutcome) (matched : List Rule) : Report :=
  match ai with
  | .ok c =>
      { summary := c.summary, actions := c.actions,
        potential_risks := c.potential_risks, tips := c.tips,
        budget_planning := c.budget_planning,
        open_questions := c.open_questions, is_fallback := false }
  | .failure _ => create_basic_report matched

/-- How a read of the rule-corpus source can go: the file is missing, the
read or parse raises, or it yields a rule list. -/
inductive SourceRead where
  | missing
  | unreadable
  | readable (rules : List Rule)
deriving DecidableEq

/-- Modelled from the spec: get_fallback_rules of backend/app.py is not in
src; spec section 7 and the doc describe it as a minimal built-in nonempty
rule set. -/
def get_fallback_rules : List Rule :=
  [{ id := "fallback-001", category := "fire", title := "basic fire safety",
     status := "mandatory", note := "", section_ref := "",
     cond := {}, source := "builtin" }]

/-- Modelled from the spec: load_restaurant_rules of backend/app.py is not
in src; this follows the verbatim excerpt in
src/docs/TECHNICAL_DOCUMENTATION.md (lines 422-438).  The previous global
corpus is an explicit argument; a successful read replaces it with the
file contents, while a missing file or a raising read replaces it with the
built-in fallback rules. -/
def load_restaurant_rules (prev : List Rule) (src : SourceRead) : List Rule :=
  match src with
  | .readable rules => rules
  | .missing => get_fallback_rules
  | .unreadable => get_fallback_rules

/-- A rule standing for previously loaded file contents. -/
def prevLoadedRule : Rule :=
  { id := "prev-001", category := "health", title := "sanitation basics",
    status := "mandatory", note := "", section_ref := "",
    cond := {}, source := "file" }

/-- A JavaScript Error object: its constructor name and message. -/
structure JSError where
  name : String
  message : String
deriving DecidableEq

/-- Outcome of fetchWithErrorHandling: a normal return of the parsed JSON
body, or a thrown error. -/
inductive FetchResult where
  | returns (data : List (String × String))
  | throws (e : JSError)
deriving DecidableEq

/-- The ReferenceError a JavaScript engine throws when a const binding is
read inside its temporal dead zone. -/
def tdzReferenceError : JSError :=
  { name := "ReferenceError", message := "Cannot access data before initialization" }

/-- The Error the non-ok branch would construct from a server-provided
message. -/
def serverMessageError (msg : String) : JSError :=
  { name := "Error", message := msg }

/-- The generic Error of the non-ok branch when no server message is
found, carrying the HTTP status. -/
def httpStatusError (status : ℕ) : JSError :=
  { name := "Error", message := "server communication failed, status " ++ toString status }

/-- Substring test, as String.prototype.includes: some suffix of s starts
with sub. -/
def strIncludes (s sub : String) : Bool :=
  (List.range (s.length + 1)).any (fun i => sub.data.isPrefixOf (s.data.drop i))

/-- The try block of ApiService.fetchWithErrorHandling from
src/unnamed/part_000 lines 23-43.  The const declaration of data sits
after the non-ok branch in the same block, so on that branch the
identifier data is still in its temporal dead zone; the binding is
modelled as none there, and reading it throws a ReferenceError.  The
server-message branch of the source is kept under the some case and is
dead because the binding is none at that point. -/
def fetchTryBlock (response_ok : Bool) (status : ℕ)
    (jsonBody : List (String × String)) : FetchResult :=
  let dataBinding : Option (List (String × String)) := none
  if response_ok = false then
    match dataBinding with
    | none => FetchResult.throws tdzReferenceError
    | some d =>
      match d.lookup "error" with
      | some msg => FetchResult.throws (serverMessageError msg)
      | none =>
        match d.lookup "message" with
        | some msg => FetchResult.throws (serverMessageError msg)
        | none => FetchResult.throws (httpStatusError status)
  else
    FetchResult.returns jsonBody

/-- The catch block of ApiService.fetchWithErrorHandling: a TypeError
whose message mentions fetch becomes a connection error, a message
mentioning HTTP error becomes a generic communication error, and any
other error is rethrown unchanged. -/
def fetchCatchHandler (baseUrl : String) (e : JSError) : JSError :=
  if (decide (e.name = "TypeError") && strIncludes e.message "fetch") = true then
    { name := "Error", message := "cannot connect to server at " ++ baseUrl }
  else if strIncludes e.message "HTTP error" = true then
    { name := "Error", message := "server communication error, try again" }
  else e

/-- ApiService.fetchWithErrorHandling: the try block, with every error it
throws routed through the catch block. -/
def fetchWithErrorHandling (baseUrl : String) (response_ok : Bool)
    (status : ℕ) (jsonBody : List (String × String)) : FetchResult :=
  match fetchTryBlock response_ok status jsonBody with
  | .returns d => FetchResult.returns d
  | .throws e => FetchResult.throws (fetchCatchHandler baseUrl e)

/-- Form validation validateInputs from src/frontend/script.js lines
34-44: the parsed area and seats inputs (none models NaN from parseFloat
or parseInt on bad input) and the list of checked feature values; valid
iff area is positive, seats non-negative and at least one feature box is
checked. -/
def validateInputs (area : Option ℚ) (seats : Option ℤ)
    (selectedFeatures : List String) : Bool :=
  (match area with | some a => decide (a > 0) | none => false) &&
  (match seats with | some s => decide (s ≥ 0) | none => false) &&
  decide (selectedFeatures.length > 0)

/-- The submit button disabled state set by validateInputs. -/
def submitBtnDisabled (area : Option ℚ) (seats : Option ℤ)
    (selectedFeatures : List String) : Bool :=
  !(validateInputs area seats selectedFeatures)

/-- The three feature checkboxes of BusinessForm in src/unnamed/part_001. -/
structure BFFeatures where
  gas : Bool
  meat : Bool
  delivery : Bool
deriving DecidableEq

/-- Area error of BusinessForm.validate: the raw input is empty, parses to
NaN, or parses to a non-positive number. -/
def BF_area_error (area : String) : Bool :=
  decide (area = "") ||
  match jsStrToNum area with
  | none => true
  | some a => decide (a ≤ 0)

/-- Seats error of BusinessForm.validate: the raw input is empty, parses
to NaN, or parses to a negative number. -/
def BF_seats_error (seats : String) : Bool :=
  decide (seats = "") ||
  match jsStrToNum seats with
  | none => true
  | some s => decide (s < 0)

/-- Features error of BusinessForm.validate: no checkbox is checked. -/
def BF_features_error (f : BFFeatures) : Bool :=
  !(f.gas || f.meat || f.delivery)

/-- BusinessForm.validate from src/unnamed/part_001 lines 295-305: the
form is valid iff the error record stays empty. -/
def BusinessForm_validate (area seats : String) (f : BFFeatures) : Bool :=
  !(BF_area_error area) && !(BF_seats_error seats) && !(BF_features_error f)

/-- The selected feature values, in the gas, meat, delivery entry order of
the state object. -/
def BF_selectedFeatures (f : BFFeatures) : List String :=
  (if f.gas then ["gas"] else []) ++
  (if f.meat then ["meat"] else []) ++
  (if f.delivery then ["delivery"] else [])

/-- The payload a form hands to onSubmit. -/
structure SubmittedProfile where
  area : ℚ
  seats : ℚ
  features : List String
deriving DecidableEq

/-- BusinessForm.submit: calls onSubmit with the normalized payload iff
validation passes; none models the blocked submission. -/
def BusinessForm_submit (area seats : String) (f : BFFeatures) :
    Option SubmittedProfile :=
  if BusinessForm_validate area seats f = true then
    some { area := (jsStrToNum area).getD 0, seats := (jsStrToNum seats).getD 0,
           features := BF_selectedFeatures f }
  else none

/-- Number-field error of DynamicForm.validate from
src/my-app/src/components/DynamicForm.jsx lines 31-37: a required field
errors when empty or NaN, and a parsed value errors when outside the
declared bounds. -/
def DF_number_error (required : Bool) (minBound maxBound : Option ℚ)
    (val : String) : Bool :=
  (required && (decide (val = "") || (jsStrToNum val).isNone)) ||
  match jsStrToNum val with
  | none => false
  | some n =>
      (minBound.any fun m => decide (n < m)) ||
      (maxBound.any fun m => decide (n > m))

/-- Checkbox-group error of DynamicForm.validate lines 40-47: a required
group errors when empty, and a minSelected bound errors when too few are
checked. -/
def DF_checkbox_error (required : Bool) (minSelected : Option ℕ)
    (val : List String) : Bool :=
  (required && val.isEmpty) ||
  (minSelected.any fun m => decide (val.length < m))

/-- The raw values of the restaurant DynamicForm. -/
structure DFValues where
  area : String
  seats : String
  features : List String
deriving DecidableEq

/-- DynamicForm.validate instantiated at the restaurant schema of
src/unnamed/part_001 (businessTypes.js): area required with min 1, seats
required with min 0, features a required checkbox-group with minSelected
1. -/
def DynamicForm_validate_restaurant (v : DFValues) : Bool :=
  !(DF_number_error true (some 1) none v.area) &&
  !(DF_number_error true (some 0) none v.seats) &&
  !(DF_checkbox_error true (some 1) v.features)

/-- DynamicForm.submit at the restaurant schema: onSubmit receives the
normalized values iff validation passes. -/
def DynamicForm_submit_restaurant (v : DFValues) : Option SubmittedProfile :=
  if DynamicForm_validate_restaurant v = true then
    some { area := (jsStrToNum v.area).getD 0,
           seats := (jsStrToNum v.seats).getD 0, features := v.features }
  else none

/-- Claim C1: a rule condition matches a profile iff every present clause
holds (inclusive area and seats bounds, features_any intersecting and
features_all contained in the profile features); an absent key never
excludes, an empty condition matches every profile, and a rule with
area_max equal to 150 matches area 150 but not area 150.0001. -/
theorem rule_matches_spec :
    (∀ c p, rule_matches c p = true ↔ conditionHolds c p) ∧
    (∀ p, rule_matches emptyCondition p = true) ∧
    rule_matches condAreaMax150 profileArea150 = true ∧
    rule_matches condAreaMax150 profileArea150_0001 = false := by
  refine ⟨fun c p => ?_, fun p => ?_,
    by norm_num [rule_matches, condAreaMax150, profileArea150],
    by norm_num [rule_matches, condAreaMax150, profileArea150_0001]⟩
  · rcases c with ⟨amin, amax, smin, smax, fany, fall⟩
    cases amin <;> cases amax <;> cases smin <;> cases smax <;> cases fany <;> cases fall <;>
      simp [rule_matches, conditionHolds, not_lt, List.contains, List.elem_iff]
  · simp [rule_matches, emptyCondition]

/-- Witness for rule_matches_spec at a concrete condition and profile. -/
theorem rule_matches_spec_witness :
    rule_matches emptyCondition profileArea150 = true :=
  rule_matches_spec.2.1 profileArea150

/-- Claim C2: the matched set is a subsequence of the corpus: every matched
rule is an element of the corpus and the relative order of the corpus is
preserved (stable filter, no re-sorting or deduplication). -/
theorem matchedRules_sublist :
    (∀ p corpus, (matchedRules p corpus).Sublist corpus) ∧
    (∀ p corpus r, r ∈ matchedRules p corpus → r ∈ corpus) := by
  refine ⟨fun p corpus => List.filter_sublist corpus, fun p corpus r hr => ?_⟩
  exact (List.filter_sublist corpus).subset hr

/-- Witness for matchedRules_sublist at a concrete corpus: membership in
the matched set implies membership in the corpus. -/
theorem matchedRules_sublist_witness :
    (matchedRules profileArea150 [prevLoadedRule]).Sublist [prevLoadedRule] :=
  matchedRules_sublist.1 profileArea150 [prevLoadedRule]

/-- Claim C3: the fire track is declaration iff area is at most 150 and
seats at most 50, otherwise full-review; scenario A with area 80, seats 25
gets the declaration track. -/
theorem fire_track_spec :
    (∀ a s, fire_track a s = .declaration ↔ (a ≤ 150 ∧ s ≤ 50)) ∧
    (∀ a s, fire_track a s = .fullReview ↔ ¬(a ≤ 150 ∧ s ≤ 50)) ∧
    fire_track 80 25 = .declaration := by
  refine ⟨fun a s => ?_, fun a s => ?_, by decide⟩ <;>
    by_cases h : a ≤ 150 ∧ s ≤ 50 <;> simp [fire_track, h]

/-- Witness for fire_track_spec: scenario A gets the declaration track. -/
theorem fire_track_spec_witness : fire_track 80 25 = FireTrack.declaration :=
  fire_track_spec.2.2

/-- Claim C4: police requirements apply iff alcohol is declared or seats
strictly exceed 200; exactly 200 seats without alcohol does not trigger,
and scenario B with alcohol among 150 seats does. -/
theorem police_required_spec :
    (∀ s fs, police_required s fs = true ↔ ("alcohol" ∈ fs ∨ s > 200)) ∧
    police_required 200 ["gas"] = false ∧
    police_required 150 ["alcohol", "delivery"] = true := by
  refine ⟨fun s fs => ?_, by decide, by decide⟩
  simp [police_required, List.contains, List.elem_iff]

/-- Witness for police_required_spec: scenario B triggers the requirement. -/
theorem police_required_spec_witness :
    police_required 150 ["alcohol", "delivery"] = true :=
  police_required_spec.2.2

/-- Claim C5: a features list containing a value outside the closed
enumeration fails validation with an error that reports the offending
values; no such list passes validation. -/
theorem validate_features_reports_invalid (fs : List String) (f : String)
    (hmem : f ∈ fs) (hbad : f ∉ allowed_features) :
    ∃ bad, validate_features fs = Except.error bad ∧ f ∈ bad := by
  have hfmem : f ∈ fs.filter (fun g => !(allowed_features.contains g)) := by
    simp [List.mem_filter, List.contains, List.elem_iff, hmem, hbad]
  have hne : ¬(fs.filter (fun g => !(allowed_features.contains g))).isEmpty = true := by
    intro h
    rw [List.isEmpty_iff] at h
    rw [h] at hfmem
    exact absurd hfmem (List.not_mem_nil f)
  refine ⟨_, ?_, hfmem⟩
  simp only [validate_features]
  rw [if_neg hne]

/-- Witness for validate_features_reports_invalid at a concrete input. -/
theorem validate_features_reports_invalid_witness :
    ("foo" ∈ ["gas", "foo"] ∧ "foo" ∉ allowed_features) ∧
    ∃ bad, validate_features ["gas", "foo"] = Except.error bad ∧ "foo" ∈ bad :=
  ⟨⟨by decide, by decide⟩,
    validate_features_reports_invalid ["gas", "foo"] "foo" (by decide) (by decide)⟩

/-- Claim C6 counterexample: the string value abc cannot be coerced to a
number, so the claim requires validation to raise on it as area; but
validateBusinessData accepts it, because a non-numeric string is truthy
and its NaN comparison against zero is false. -/
theorem validateBusinessData_noncoercible_area_accepted :
    (JSVal.str "abc").toNum = none ∧
    validateBusinessData (.str "abc") (.num 5) (.arr []) = Except.ok () := by
  exact ⟨by decide, by rfl⟩

/-- Helper: jsLe is true exactly on values coercing to a number at most
the bound. -/
theorem jsLe_eq_true (v : JSVal) (b : ℚ) :
    jsLe v b = true ↔ ∃ q, v.toNum = some q ∧ q ≤ b := by
  unfold jsLe
  cases h : v.toNum <;> simp

/-- Helper: jsLt is true exactly on values coercing to a number below the
bound. -/
theorem jsLt_eq_true (v : JSVal) (b : ℚ) :
    jsLt v b = true ↔ ∃ q, v.toNum = some q ∧ q < b := by
  unfold jsLt
  cases h : v.toNum <;> simp

/-- Claim C6 as amended: validateBusinessData raises exactly when the area
is falsy or coerces to a number at most zero, when seats is undefined or
coerces to a negative number, or when features is not an array; a value
whose coercion is NaN never trips the numeric bound checks, so a
non-numeric string area or seats value passes them. -/
theorem validateBusinessData_error_iff (area seats features : JSVal) :
    (∃ e, validateBusinessData area seats features = Except.error e) ↔
      (area.truthy = false ∨ (∃ q, area.toNum = some q ∧ q ≤ 0)) ∨
      (seats = JSVal.undef ∨ (∃ q, seats.toNum = some q ∧ q < 0)) ∨
      features.isArr = false := by
  unfold validateBusinessData
  split_ifs with h1 h2 h3 <;>
    simp_all [jsLe_eq_true, jsLt_eq_true, Bool.or_eq_true, Bool.not_eq_true',
      decide_eq_true_iff]

/-- Witness for validateBusinessData_error_iff: an undefined area raises. -/
theorem validateBusinessData_error_iff_witness :
    ∃ e, validateBusinessData JSVal.undef (.num 5) (.arr []) = Except.error e :=
  (validateBusinessData_error_iff JSVal.undef (.num 5) (.arr [])).mpr
    (Or.inl (Or.inl (by decide)))

/-- Claim C7: the fallback-path report carries the fallback marker true,
the AI-path report carries it false, both variants expose the same
top-level schema keys, and the marker is exactly the trace of which path
ran. -/
theorem assemble_report_fallback_flag :
    (∀ matched reason,
      (assemble_report (.failure reason) matched).is_fallback = true) ∧
    (∀ matched c, (assemble_report (.ok c) matched).is_fallback = false) ∧
    (∀ matched ai,
      (assemble_report ai matched).topLevelKeys = reportSchemaKeys) ∧
    (∀ matched ai,
      ((assemble_report ai matched).is_fallback = true ↔
        ∃ reason, ai = AIOutcome.failure reason)) := by
  refine ⟨fun _ _ => rfl, fun _ _ => rfl, fun _ _ => rfl, fun matched ai => ?_⟩
  cases ai <;> simp [assemble_report, create_basic_report]

/-- Witness for assemble_report_fallback_flag: a timed-out AI attempt with
an empty matched set yields the fallback marker. -/
theorem assemble_report_fallback_flag_witness :
    (assemble_report (.failure "timeout") []).is_fallback = true :=
  assemble_report_fallback_flag.1 [] "timeout"

/-- Claim C8 counterexample: a failing reload does not leave the store
holding the corpus it held before; starting from a corpus strictly larger
than the built-in fallback set, the store afterwards holds the fallback
set, which differs from the previous corpus. -/
theorem load_restaurant_rules_discards_previous :
    load_restaurant_rules (prevLoadedRule :: get_fallback_rules)
        SourceRead.unreadable = get_fallback_rules ∧
    get_fallback_rules ≠ prevLoadedRule :: get_fallback_rules := by
  exact ⟨rfl, by decide⟩

/-- Claim C8 as amended: on a failing or missing source read the store is
replaced by the minimal built-in fallback rule set, regardless of the
previous corpus, so it is never left empty; a successful read installs the
new rules; the failure is only logged, never surfaced as a request
failure. -/
theorem load_restaurant_rules_failure_fallback :
    (∀ prev, load_restaurant_rules prev .unreadable = get_fallback_rules) ∧
    (∀ prev, load_restaurant_rules prev .missing = get_fallback_rules) ∧
    (∀ prev rules, load_restaurant_rules prev (.readable rules) = rules) ∧
    get_fallback_rules ≠ [] := by
  exact ⟨fun _ => rfl, fun _ => rfl, fun _ _ => rfl, by decide⟩

/-- Witness for load_restaurant_rules_failure_fallback starting from an
empty store with a missing source file. -/
theorem load_restaurant_rules_failure_fallback_witness :
    load_restaurant_rules [] SourceRead.missing = get_fallback_rules :=
  load_restaurant_rules_failure_fallback.2.1 []

/-- Claim C9: on a non-ok response fetchWithErrorHandling always throws and
never returns normally; it rethrows the temporal-dead-zone ReferenceError
regardless of the response body, so the server-message branch is
unreachable and the thrown error is never the Error built from a server
message. -/
theorem fetchWithErrorHandling_notok_throws (baseUrl : String) (status : ℕ)
    (jsonBody : List (String × String)) :
    fetchWithErrorHandling baseUrl false status jsonBody =
      FetchResult.throws tdzReferenceError ∧
    (∀ d, fetchWithErrorHandling baseUrl false status jsonBody ≠
      FetchResult.returns d) ∧
    (∀ msg, fetchWithErrorHandling baseUrl false status jsonBody ≠
      FetchResult.throws (serverMessageError msg)) := by
  have h1 : fetchWithErrorHandling baseUrl false status jsonBody =
      FetchResult.throws tdzReferenceError := rfl
  refine ⟨h1, ?_, ?_⟩ <;> intro x <;> rw [h1] <;>
    simp [tdzReferenceError, serverMessageError]

/-- Witness for fetchWithErrorHandling_notok_throws at a concrete non-ok
response carrying a server error message. -/
theorem fetchWithErrorHandling_notok_throws_witness :
    fetchWithErrorHandling "http://localhost:8000" false 500
        [("error", "ai required")] = FetchResult.throws tdzReferenceError :=
  (fetchWithErrorHandling_notok_throws "http://localhost:8000" 500
    [("error", "ai required")]).1

/-- Helper: a feature-error-free BusinessForm state selects at least one
feature value. -/
theorem BF_selected_ne_nil (f : BFFeatures) (h : BF_features_error f = false) :
    BF_selectedFeatures f ≠ [] := by
  rcases f with ⟨g, m, d⟩
  cases g <;> cases m <;> cases d <;>
    simp_all [BF_features_error, BF_selectedFeatures]

/-- Helper: a valid BusinessForm state has no feature error. -/
theorem BF_validate_no_features_error (area seats : String) (f : BFFeatures)
    (h : BusinessForm_validate area seats f = true) :
    BF_features_error f = false := by
  simp only [BusinessForm_validate, Bool.and_eq_true, Bool.not_eq_true'] at h
  exact h.2

/-- Helper: a valid restaurant DynamicForm state has a nonempty feature
list. -/
theorem DF_validate_features_nonempty (v : DFValues)
    (h : DynamicForm_validate_restaurant v = true) : v.features ≠ [] := by
  simp only [DynamicForm_validate_restaurant, Bool.and_eq_true,
    Bool.not_eq_true'] at h
  have hcb := h.2
  intro hempty
  rw [DF_checkbox_error, hempty] at hcb
  simp at hcb

/-- Claim C10: with no feature selected, validateInputs disables the
submit button, and neither React form ever calls onSubmit; consequently
every payload a form hands to onSubmit carries at least one feature tag. -/
theorem frontend_blocks_empty_features :
    (∀ area seats, submitBtnDisabled area seats [] = true) ∧
    (∀ area seats f p, BusinessForm_submit area seats f = some p →
      p.features ≠ []) ∧
    (∀ v p, DynamicForm_submit_restaurant v = some p → p.features ≠ []) := by
  refine ⟨fun area seats => ?_, fun area seats f p hsub => ?_,
    fun v p hsub => ?_⟩
  · simp [submitBtnDisabled, validateInputs]
  · by_cases h : BusinessForm_validate area seats f = true
    · unfold BusinessForm_submit at hsub
      rw [if_pos h] at hsub
      obtain rfl := Option.some.inj hsub
      exact BF_selected_ne_nil f (BF_validate_no_features_error area seats f h)
    · unfold BusinessForm_submit at hsub
      rw [if_neg h] at hsub
      exact absurd hsub (by simp)
  · by_cases h : DynamicForm_validate_restaurant v = true
    · unfold DynamicForm_submit_restaurant at hsub
      rw [if_pos h] at hsub
      obtain rfl := Option.some.inj hsub
      exact DF_validate_features_nonempty v h
    · unfold DynamicForm_submit_restaurant at hsub
      rw [if_neg h] at hsub
      exact absurd hsub (by simp)

/-- Witness for frontend_blocks_empty_features at concrete form states. -/
theorem frontend_blocks_empty_features_witness :
    submitBtnDisabled (some 80) (some 40) [] = true ∧
    (({ area := 80, seats := 40, features := ["gas"] } :
        SubmittedProfile).features ≠ []) :=
  ⟨frontend_blocks_empty_features.1 (some 80) (some 40),
   frontend_blocks_empty_features.2.1 "80" "40" ⟨true, false, false⟩ _ (by rfl)⟩

end LicensingAssistant
